import Mathlib

/-!
Shallow embedding of the space-sim simulation core
(`physics_engine/game_state.py`, `physics_engine/physics.py`,
`entities/{spaceship,laser,mine}.py`, `config/game_config.py`)
together with theorems settling the spec claims.

Positions are pairs of rationals (the Python code stores floats, but every
quantity the claims touch is produced by exact decimal arithmetic on the
modelled inputs); Python `int()` truncation toward zero is `truncQ`;
Python `%` on integers is Lean `Int.emod` (both yield a result with the
sign of the modulus).  Wall-clock time (`time.time()`) is threaded in
explicitly as a `now : ℚ` argument of the operations that read it.
-/

namespace SpaceSim

/-- `physics_engine/position.py`: a 2D position; equality is exact
coordinate equality. -/
structure Position where
  x : ℚ
  y : ℚ
deriving DecidableEq, Repr

/-- Python `int()` applied to a rational: truncation toward zero. -/
def truncQ (q : ℚ) : ℤ :=
  if 0 ≤ q then ⌊q⌋ else ⌈q⌉

/-! Configuration constants from `config/game_config.py`. -/

def SCREEN_WIDTH : ℤ := 900
def SCREEN_HEIGHT : ℤ := 600
def CELL_SIZE : ℤ := 30
def SHIELD_DURATION : ℚ := 3
def FLASH_DURATION : ℚ := 1/2
def INITIAL_LIFES : ℤ := 5
def LASER_SPEED : ℚ := 10
def GRID_WIDTH : ℤ := SCREEN_WIDTH / CELL_SIZE
def GRID_HEIGHT : ℤ := SCREEN_HEIGHT / CELL_SIZE

/-- `entities/spaceship.py`: the per-ship data the simulation core reads
and writes (rendering-only fields omitted). -/
structure Spaceship where
  id : String
  name : String
  position : Position
  rotation : ℤ
  lifes : ℤ
  active : Bool
  shield_active : Bool
  shield_available : Bool
  shield_used : Bool
  shield_start_time : ℚ
deriving DecidableEq, Repr

/-- `entities/laser.py`: a laser projectile. -/
structure Laser where
  position : Position
  direction : Position
  owner_id : String
  active : Bool
  speed : ℚ
deriving DecidableEq, Repr

/-- `entities/mine.py`: a mine (rendering fields omitted; the `active`
field is never cleared by the core, which removes mines from the list
instead). -/
structure Mine where
  position : Position
deriving DecidableEq, Repr

/-- `physics_engine/physics.py`: the stateless physics engine, holding the
world dimensions it was constructed with. -/
structure PhysicsEngine where
  world_width : ℤ
  world_height : ℤ
  cell_size : ℤ
deriving DecidableEq, Repr

namespace PhysicsEngine

/-- `PhysicsEngine.check_wall_collision`: membership of the
integer-truncated cell in the wall list. -/
def check_wall_collision (_e : PhysicsEngine) (position : Position)
    (walls : List Position) : Bool :=
  decide ((⟨(truncQ position.x : ℚ), (truncQ position.y : ℚ)⟩ : Position) ∈ walls)

/-- `PhysicsEngine.check_mine_collision`: equality of integer-truncated
cells. -/
def check_mine_collision (_e : PhysicsEngine) (position : Position)
    (mine_position : Position) : Bool :=
  decide (truncQ position.x = truncQ mine_position.x ∧
          truncQ position.y = truncQ mine_position.y)

/-- `PhysicsEngine.check_laser_collision`: equality of integer-truncated
cells. -/
def check_laser_collision (_e : PhysicsEngine) (laser_position : Position)
    (target_position : Position) : Bool :=
  decide (truncQ laser_position.x = truncQ target_position.x ∧
          truncQ laser_position.y = truncQ target_position.y)

/-- `PhysicsEngine.is_valid_move`: no wall at the truncated cell, and the
raw (untruncated) coordinates lie inside `[0, grid_width) × [0, grid_height)`
where the grid dimensions come from integer division of the world size by
the cell size. -/
def is_valid_move (e : PhysicsEngine) (position : Position)
    (walls : List Position) : Bool :=
  if e.check_wall_collision position walls then false
  else
    let grid_width : ℤ := e.world_width / e.cell_size
    let grid_height : ℤ := e.world_height / e.cell_size
    if position.x < 0 ∨ (grid_width : ℚ) ≤ position.x ∨
       position.y < 0 ∨ (grid_height : ℚ) ≤ position.y then false
    else true

/-- `PhysicsEngine.update_laser_position`: first move the laser by
`direction * dt * speed`, then report whether the raw moved coordinates are
still inside the grid bounds; the moved laser is kept in both cases. -/
def update_laser_position (e : PhysicsEngine) (laser : Laser) (dt : ℚ) :
    Bool × Laser :=
  let moved : Laser :=
    { laser with
      position := ⟨laser.position.x + laser.direction.x * dt * laser.speed,
                   laser.position.y + laser.direction.y * dt * laser.speed⟩ }
  let grid_width : ℤ := e.world_width / e.cell_size
  let grid_height : ℤ := e.world_height / e.cell_size
  (decide (0 ≤ moved.position.x ∧ moved.position.x < (grid_width : ℚ) ∧
           0 ≤ moved.position.y ∧ moved.position.y < (grid_height : ℚ)),
   moved)

end PhysicsEngine

/-- The engine instance `GameState.__init__` builds:
`PhysicsEngine(SCREEN_WIDTH, SCREEN_HEIGHT, CELL_SIZE)`. -/
def engine : PhysicsEngine :=
  { world_width := SCREEN_WIDTH, world_height := SCREEN_HEIGHT,
    cell_size := CELL_SIZE }

/-- `Spaceship.get_direction_vector` / the sin-cos computation in
`GameState.fire_laser`: on the rotations the core ever stores
(multiples of 90 in `[0, 360)`, maintained by `rotate_player`'s `% 360`)
the Python `round(sin θ), -round(cos θ)` computation yields exactly these
unit vectors. -/
def get_direction_vector (rotation : ℤ) : Position :=
  if rotation = 90 then ⟨1, 0⟩
  else if rotation = 180 then ⟨0, 1⟩
  else if rotation = 270 then ⟨-1, 0⟩
  else ⟨0, -1⟩

/-- `GameState`: the authoritative simulation state.  `players` is the
registry in insertion order (Python dicts preserve insertion order);
`walls` and `mines` are initialised from the compiled-in `WALLS`/`MINES`
configuration lists. -/
structure GameState where
  players : List (String × Spaceship)
  lasers : List Laser
  mines : List Mine
  walls : List Position
  game_over : Bool
  is_flashing : Bool
  flash_start_time : ℚ
deriving DecidableEq, Repr

namespace GameState

/-- `GameState.reset`, parameterised by the configuration's wall and mine
layouts (the Python module reads the fixed `WALLS` and `MINES` lists; the
spec quantifies over wall/mine configurations). -/
def init (walls mines : List Position) : GameState :=
  { players := [],
    lasers := [],
    mines := mines.map (fun p => ⟨p⟩),
    walls := walls,
    game_over := false,
    is_flashing := false,
    flash_start_time := 0 }

/-- Dictionary lookup `self.players.get(player_id)`. -/
def getPlayer (s : GameState) (player_id : String) : Option Spaceship :=
  s.players.lookup player_id

/-- Dictionary value replacement: writing back the (in Python, aliased and
mutated in place) ship object stored under `player_id`. -/
def setPlayer (s : GameState) (player_id : String) (p : Spaceship) :
    GameState :=
  { s with players :=
      s.players.map (fun q => if q.1 = player_id then (q.1, p) else q) }

namespace SpawnHelpers

/-- The fixed spawn-candidate list of `add_player`: center, right of
center, left of center, below center. -/
def spawn_positions : List (ℤ × ℤ) :=
  let center_x := GRID_WIDTH / 2
  let center_y := GRID_HEIGHT / 2
  [(center_x, center_y), (center_x + 3, center_y),
   (center_x - 3, center_y), (center_x, center_y + 3)]

/-- The spawn-candidate filter of `add_player`: the cell is a valid move
target and no registered player already sits on exactly that cell. -/
def spawnFree (s : GameState) (pos : ℤ × ℤ) : Bool :=
  engine.is_valid_move ⟨(pos.1 : ℚ), (pos.2 : ℚ)⟩ s.walls &&
  !(s.players.any (fun q =>
      q.2.position.x = (pos.1 : ℚ) && q.2.position.y = (pos.2 : ℚ)))

end SpawnHelpers

/-- `GameState.add_player`: reject a registered id, else take the first
free spawn candidate, else reject; on success append a fresh ship with the
initial life count, an unused shield, rotation 0 and a default name when
none (or the empty string, falsy in Python) was given. -/
def add_player (s : GameState) (player_id : String) (name : Option String) :
    Bool × GameState :=
  if s.players.any (fun q => q.1 = player_id) then (false, s)
  else
    match (SpawnHelpers.spawn_positions.filter (SpawnHelpers.spawnFree s)).head? with
    | none => (false, s)
    | some pos =>
      let given := name.getD ""
      let finalName := if given = "" then "Player " ++ toString (s.players.length + 1) else given
      let player : Spaceship :=
        { id := player_id, name := finalName,
          position := ⟨(pos.1 : ℚ), (pos.2 : ℚ)⟩,
          rotation := 0, lifes := INITIAL_LIFES, active := true,
          shield_active := false, shield_available := true,
          shield_used := false, shield_start_time := 0 }
      (true, { s with players := s.players ++ [(player_id, player)] })

/-- `GameState.remove_player`: delete the entry, failure on unknown id. -/
def remove_player (s : GameState) (player_id : String) : Bool × GameState :=
  if s.players.any (fun q => q.1 = player_id) then
    (true, { s with players := s.players.filter (fun q => q.1 ≠ player_id) })
  else (false, s)

/-- `GameState.move_player`: require an existing active ship, truncate the
position advanced by the rotation's direction vector, and apply it only
when `is_valid_move` passes. -/
def move_player (s : GameState) (player_id : String) : Bool × GameState :=
  match s.getPlayer player_id with
  | none => (false, s)
  | some player =>
    if !player.active then (false, s)
    else
      let direction := get_direction_vector player.rotation
      let new_position : Position :=
        ⟨(truncQ (player.position.x + direction.x) : ℚ),
         (truncQ (player.position.y + direction.y) : ℚ)⟩
      if engine.is_valid_move new_position s.walls then
        (true, s.setPlayer player_id { player with position := new_position })
      else (false, s)

/-- `GameState.rotate_player`: require an existing active ship and the
direction string `"right"` or `"left"`; rotation changes by ±90 modulo 360
(Python `%`, i.e. `Int.emod`). -/
def rotate_player (s : GameState) (player_id : String) (direction : String) :
    Bool × GameState :=
  match s.getPlayer player_id with
  | none => (false, s)
  | some player =>
    if !player.active then (false, s)
    else if direction = "right" then
      (true, s.setPlayer player_id
        { player with rotation := (player.rotation + 90) % 360 })
    else if direction = "left" then
      (true, s.setPlayer player_id
        { player with rotation := (player.rotation - 90) % 360 })
    else (false, s)

/-- `GameState.fire_laser`: require an existing active ship; append a laser
at the ship's position travelling in the ship's facing direction, owned by
the firing player's id. -/
def fire_laser (s : GameState) (player_id : String) : Bool × GameState :=
  match s.getPlayer player_id with
  | none => (false, s)
  | some player =>
    if !player.active then (false, s)
    else
      let laser : Laser :=
        { position := player.position,
          direction := get_direction_vector player.rotation,
          owner_id := player_id, active := true, speed := LASER_SPEED }
      (true, { s with lasers := s.lasers ++ [laser] })

/-- `GameState.activate_shield`: require an existing ship whose shield is
available and not yet used (the code does NOT require the ship to be
active); mark the shield active, unavailable and used, and record the
activation time. -/
def activate_shield (s : GameState) (player_id : String) (now : ℚ) :
    Bool × GameState :=
  match s.getPlayer player_id with
  | none => (false, s)
  | some player =>
    if !player.shield_available || player.shield_used then (false, s)
    else
      (true, s.setPlayer player_id
        { player with shield_active := true, shield_available := false,
                      shield_used := true, shield_start_time := now })

end GameState

/-- Python's first-match search over a list (the `for … break` loops of
`update` and `_check_collisions`): index of the first element satisfying
the predicate. -/
def findIdxQ {α : Type} (pred : α → Bool) : List α → Option Nat
  | [] => none
  | a :: rest => if pred a then some 0 else (findIdxQ pred rest).map (· + 1)

/-- The life decrement shared by both collision branches: subtract the
penalty and mark the ship inactive when the result is ≤ 0. -/
def damageShip (p : Spaceship) (penalty : ℤ) : Spaceship :=
  let lifes := p.lifes - penalty
  { p with lifes := lifes, active := if lifes ≤ 0 then false else p.active }

/-- Deactivate the laser stored at the given list index. -/
def deactivateAt : List Laser → Nat → List Laser
  | [], _ => []
  | l :: rest, 0 => { l with active := false } :: rest
  | l :: rest, n + 1 => l :: deactivateAt rest n

/-- The laser phase of `GameState.update`: each still-active laser is
moved; it is dropped if it was already inactive, marked inactive if it
left the grid or sits on a wall cell, and marked inactive while the first
cell-colliding mine is removed on a mine hit (first match wins). -/
def updateLasersAux (walls : List Position) (dt : ℚ) :
    List Laser → List Mine → List Laser × List Mine
  | [], mines => ([], mines)
  | laser :: rest, mines =>
    if !laser.active then updateLasersAux walls dt rest mines
    else
      let step := engine.update_laser_position laser dt
      let moved := step.2
      if !step.1 then
        let r := updateLasersAux walls dt rest mines
        ({ moved with active := false } :: r.1, r.2)
      else if engine.check_wall_collision moved.position walls then
        let r := updateLasersAux walls dt rest mines
        ({ moved with active := false } :: r.1, r.2)
      else
        match findIdxQ
            (fun m => engine.check_mine_collision moved.position m.position) mines with
        | some i =>
          let r := updateLasersAux walls dt rest (mines.eraseIdx i)
          ({ moved with active := false } :: r.1, r.2)
        | none =>
          let r := updateLasersAux walls dt rest mines
          (moved :: r.1, r.2)

/-- The per-player mine branch of `_check_collisions`: the first mine on
the player's cell is removed unconditionally; when the shield is not
active the player additionally loses 3 lives (inactive at ≤ 0) and the
flash effect is set with the current timestamp. -/
def minePassPlayer (p : Spaceship) (mines : List Mine) (flash : Bool)
    (flashT now : ℚ) : Spaceship × List Mine × Bool × ℚ :=
  match findIdxQ
      (fun m => engine.check_mine_collision p.position m.position) mines with
  | none => (p, mines, flash, flashT)
  | some i =>
    if p.shield_active then (p, mines.eraseIdx i, flash, flashT)
    else (damageShip p 3, mines.eraseIdx i, true, now)

/-- The per-player laser branch of `_check_collisions`: the first active
laser on the player's cell whose owner differs from the player's id is
deactivated unconditionally; when the shield is not active the player
additionally loses 1 life (inactive at ≤ 0) and the flash effect is set. -/
def laserPassPlayer (p : Spaceship) (lasers : List Laser) (flash : Bool)
    (flashT now : ℚ) : Spaceship × List Laser × Bool × ℚ :=
  match findIdxQ (fun l =>
      l.active && (l.owner_id != p.id) &&
      engine.check_laser_collision l.position p.position) lasers with
  | none => (p, lasers, flash, flashT)
  | some i =>
    if p.shield_active then (p, deactivateAt lasers i, flash, flashT)
    else (damageShip p 1, deactivateAt lasers i, true, now)

/-- The player loop of `_check_collisions`, threading the mine list, laser
list and flash state through the players in registry order; inactive
players are skipped entirely, and the laser branch runs even when the mine
branch of the same pass just eliminated the player (the code does not
re-check `active` between the two branches). -/
def checkCollisionsAux (now : ℚ) :
    List (String × Spaceship) → List Mine → List Laser → Bool → ℚ →
    List (String × Spaceship) × List Mine × List Laser × Bool × ℚ
  | [], mines, lasers, flash, flashT => ([], mines, lasers, flash, flashT)
  | (pid, p) :: rest, mines, lasers, flash, flashT =>
    if !p.active then
      let r := checkCollisionsAux now rest mines lasers flash flashT
      ((pid, p) :: r.1, r.2)
    else
      let m := minePassPlayer p mines flash flashT now
      let l := laserPassPlayer m.1 lasers m.2.2.1 m.2.2.2 now
      let r := checkCollisionsAux now rest m.2.1 l.2.1 l.2.2.1 l.2.2.2
      ((pid, l.1) :: r.1, r.2)

namespace GameState

/-- `GameState._check_collisions`. -/
def check_collisions (s : GameState) (now : ℚ) : GameState :=
  let r := checkCollisionsAux now s.players s.mines s.lasers s.is_flashing
    s.flash_start_time
  { s with players := r.1, mines := r.2.1, lasers := r.2.2.1,
           is_flashing := r.2.2.2.1, flash_start_time := r.2.2.2.2 }

end GameState

/-- The shield-expiry step of `update`, applied to each player: deactivate
the shield once strictly more than `SHIELD_DURATION` has elapsed since its
activation. -/
def expireShield (now : ℚ) (p : Spaceship) : Spaceship :=
  if p.shield_active && decide (SHIELD_DURATION < now - p.shield_start_time)
  then { p with shield_active := false } else p

namespace GameState

/-- `GameState.update`: no-op when `game_over`; otherwise run the laser
phase, expire shields past `SHIELD_DURATION`, clear an expired flash, and
finally run the collision pass. -/
def update (s : GameState) (dt now : ℚ) : GameState :=
  if s.game_over then s
  else
    let lm := updateLasersAux s.walls dt s.lasers s.mines
    let players1 := s.players.map (fun q => (q.1, expireShield now q.2))
    let flash1 := s.is_flashing && !(decide (FLASH_DURATION < now - s.flash_start_time))
    check_collisions
      { s with players := players1, lasers := lm.1, mines := lm.2,
               is_flashing := flash1 } now

end GameState

/-- One per-player record of `get_environment_state`. -/
structure EnvView where
  walls : List (ℚ × ℚ)
  mines : List (ℚ × ℚ)
  lasers : List (ℚ × ℚ)
  game_over : Bool
deriving DecidableEq, Repr

/-- The relative-offset filter of `get_environment_state`: keep an entity
iff both offset components are within 5 in absolute value (Chebyshev
radius 5), reporting the raw offsets. -/
def relWithin (center : Position) (pos : Position) : Option (ℚ × ℚ) :=
  let dx := pos.x - center.x
  let dy := pos.y - center.y
  if |dx| ≤ 5 ∧ |dy| ≤ 5 then some (dx, dy) else none

/-- The per-player record body of `get_environment_state`. -/
def envViewOf (s : GameState) (ship : Spaceship) : EnvView :=
  { walls := s.walls.filterMap (relWithin ship.position),
    mines := s.mines.filterMap (fun m => relWithin ship.position m.position),
    lasers := s.lasers.filterMap (fun l => relWithin ship.position l.position),
    game_over := s.game_over }

namespace GameState

/-- `GameState.get_environment_state`: for each registered player, the
walls, mines and lasers within Chebyshev radius 5, as relative offsets
(no filtering whatsoever on a laser's `active` flag). -/
def get_environment_state (s : GameState) : List (String × EnvView) :=
  s.players.map (fun q => (q.1, envViewOf s q.2))

end GameState

/-- The external operations on the simulation core: every command of the
public API plus the tick.  Wall-clock readings are the explicit `now`
arguments. -/
inductive Op where
  | add (player_id : String) (name : Option String)
  | remove (player_id : String)
  | move (player_id : String)
  | rotate (player_id direction : String)
  | fire (player_id : String)
  | shield (player_id : String) (now : ℚ)
  | tick (dt now : ℚ)
deriving DecidableEq, Repr

/-- Apply one operation to the state (discarding the success signal). -/
def applyOp (s : GameState) : Op → GameState
  | .add pid name => (GameState.add_player s pid name).2
  | .remove pid => (GameState.remove_player s pid).2
  | .move pid => (GameState.move_player s pid).2
  | .rotate pid dir => (GameState.rotate_player s pid dir).2
  | .fire pid => (GameState.fire_laser s pid).2
  | .shield pid now => (GameState.activate_shield s pid now).2
  | .tick dt now => GameState.update s dt now

/-- The combined effect of the mine branch followed by the laser branch of
`_check_collisions` on one player's own record (the ship's resulting
fields do not depend on the threaded flash state). -/
def stepPlayer (p : Spaceship) (mines : List Mine) (lasers : List Laser)
    (flash : Bool) (flashT now : ℚ) : Spaceship :=
  if !p.active then p
  else
    (laserPassPlayer (minePassPlayer p mines flash flashT now).1 lasers
      (minePassPlayer p mines flash flashT now).2.2.1
      (minePassPlayer p mines flash flashT now).2.2.2 now).1

/-!  Concrete fixtures used to witness the theorems below on explicit
inputs.  Coordinates are written as integer casts so that kernel
evaluation never has to unfold the irreducible rational arithmetic. -/

/-- A ship standing at cell (5, 5), facing up, with a fresh shield. -/
def wShip : Spaceship :=
  { id := "a", name := "A", position := ⟨((5 : ℤ) : ℚ), ((5 : ℤ) : ℚ)⟩,
    rotation := 0, lifes := 5, active := true, shield_active := false,
    shield_available := true, shield_used := false, shield_start_time := 0 }

/-- A one-player arena with no lasers, mines or walls. -/
def wState : GameState :=
  { players := [("a", wShip)], lasers := [], mines := [], walls := [],
    game_over := false, is_flashing := false, flash_start_time := 0 }

/-- The arena of `wState` with the ship eliminated. -/
def wStateInactive : GameState :=
  { wState with players := [("a", { wShip with active := false })] }

/-- The ship of `wShip` after a successful shield activation. -/
def wShipUsed : Spaceship :=
  { wShip with shield_active := true, shield_available := false,
               shield_used := true }

/-- The arena of `wState` with the ship's shield already used. -/
def wStateUsed : GameState :=
  { wState with players := [("a", wShipUsed)] }

/-- A one-life ship standing on a mine. -/
def wStateMine : GameState :=
  { wState with players := [("a", { wShip with lifes := 1 })],
                mines := [⟨⟨((5 : ℤ) : ℚ), ((5 : ℤ) : ℚ)⟩⟩] }

/-- A laser owned by ship "a", on ship "a"'s own cell. -/
def wLaser : Laser :=
  { position := ⟨((5 : ℤ) : ℚ), ((5 : ℤ) : ℚ)⟩, direction := ⟨0, -1⟩,
    owner_id := "a", active := true, speed := 10 }

/-- An already-deactivated laser one cell to the right of ship "a". -/
def wLaserDead : Laser :=
  { position := ⟨((6 : ℤ) : ℚ), ((5 : ℤ) : ℚ)⟩, direction := ⟨0, -1⟩,
    owner_id := "b", active := false, speed := 10 }

/-- The arena of `wState` together with the dead laser. -/
def wStateLaser : GameState :=
  { wState with lasers := [wLaserDead] }

/-!  Helper lemmas about association-list lookup under the registry
operations, and about the collision passes.  -/

theorem lookup_cons {β : Type} (k k' : String) (v : β) (l : List (String × β)) :
    ((k', v) :: l).lookup k = if k = k' then some v else l.lookup k := by
  show (match k == k' with | true => some v | false => l.lookup k) = _
  by_cases h : k = k'
  · rw [if_pos h]
    have hb : (k == k') = true := by simpa using h
    rw [hb]
  · rw [if_neg h]
    have hb : (k == k') = false := by simpa using h
    rw [hb]

theorem lookup_map_keyfun {β γ : Type} (g : String → β → γ) (k : String) :
    ∀ l : List (String × β),
      (l.map (fun q => (q.1, g q.1 q.2))).lookup k = (l.lookup k).map (g k)
  | [] => rfl
  | (k', v) :: rest => by
      rw [List.map_cons, lookup_cons, lookup_cons]
      by_cases h : k = k'
      · subst h; simp
      · simp [h, lookup_map_keyfun g k rest]

theorem lookup_map_value {β γ : Type} (f : β → γ) (k : String)
    (l : List (String × β)) :
    (l.map (fun q => (q.1, f q.2))).lookup k = (l.lookup k).map f :=
  lookup_map_keyfun (fun _ x => f x) k l

theorem lookup_replace_aux (pid k : String) (p : Spaceship) :
    ∀ l : List (String × Spaceship),
      (l.map (fun q => if q.1 = pid then (q.1, p) else q)).lookup k =
        if k = pid then (l.lookup k).map (fun _ => p) else l.lookup k
  | [] => by by_cases h : k = pid <;> simp [List.lookup, h]
  | (k', v) :: rest => by
      rw [List.map_cons]
      dsimp only
      by_cases h1 : k' = pid
      · rw [if_pos h1, lookup_cons, lookup_cons]
        by_cases h2 : k = k'
        · rw [if_pos h2, if_pos h2, if_pos (h2.trans h1)]
          simp
        · rw [if_neg h2, if_neg h2, lookup_replace_aux pid k p rest]
      · rw [if_neg h1, lookup_cons, lookup_cons]
        by_cases h2 : k = k'
        · have hkp : ¬ k = pid := fun hh => h1 ((h2.symm.trans hh))
          rw [if_pos h2, if_pos h2, if_neg hkp]
        · rw [if_neg h2, if_neg h2, lookup_replace_aux pid k p rest]

theorem lookup_setPlayer (s : GameState) (pid k : String) (p : Spaceship) :
    (s.setPlayer pid p).players.lookup k =
      if k = pid then (s.players.lookup k).map (fun _ => p)
      else s.players.lookup k :=
  lookup_replace_aux pid k p s.players

theorem lookup_append_some {β : Type} (k : String) (v : β) :
    ∀ (l l' : List (String × β)),
      l.lookup k = some v → (l ++ l').lookup k = some v
  | [], _, h => by simp [List.lookup] at h
  | (k', w) :: rest, l', h => by
      rw [List.cons_append, lookup_cons]
      rw [lookup_cons] at h
      by_cases hk : k = k'
      · simpa [hk] using h
      · rw [if_neg hk] at h ⊢
        exact lookup_append_some k v rest l' h

theorem lookup_filter_ne (pid k : String) (h : k ≠ pid) :
    ∀ l : List (String × Spaceship),
      (l.filter (fun q => q.1 ≠ pid)).lookup k = l.lookup k
  | [] => rfl
  | (k', v) :: rest => by
      rw [List.filter_cons]
      by_cases h1 : k' = pid
      · have hkk : ¬ k = k' := fun hh => h (hh.trans h1)
        have hcond : (decide ((k', v).1 ≠ pid)) = false := by
          simp [h1]
        rw [hcond, if_neg (by simp : ¬ (false = true)),
          lookup_filter_ne pid k h rest, lookup_cons, if_neg hkk]
      · have hcond : (decide ((k', v).1 ≠ pid)) = true := by
          simp [h1]
        rw [hcond, if_pos rfl, lookup_cons, lookup_cons,
          lookup_filter_ne pid k h rest]

theorem lookup_filter_self (pid : String) :
    ∀ l : List (String × Spaceship),
      (l.filter (fun q => q.1 ≠ pid)).lookup pid = none
  | [] => rfl
  | (k', v) :: rest => by
      rw [List.filter_cons]
      by_cases h1 : k' = pid
      · have hcond : (decide ((k', v).1 ≠ pid)) = false := by
          simp [h1]
        rw [hcond, if_neg (by simp : ¬ (false = true)),
          lookup_filter_self pid rest]
      · have hcond : (decide ((k', v).1 ≠ pid)) = true := by
          simp [h1]
        have hpk : ¬ pid = k' := fun hh => h1 hh.symm
        rw [hcond, if_pos rfl, lookup_cons, if_neg hpk,
          lookup_filter_self pid rest]

theorem minePass_one (p : Spaceship) (ms : List Mine) (f : Bool) (t now : ℚ) :
    (minePassPlayer p ms f t now).1 =
      if (findIdxQ (fun m =>
            engine.check_mine_collision p.position m.position) ms).isSome
          && !p.shield_active
      then damageShip p 3 else p := by
  unfold minePassPlayer
  cases h : findIdxQ (fun m =>
      engine.check_mine_collision p.position m.position) ms <;>
    cases hs : p.shield_active <;> simp [h, hs]

theorem laserPass_one (p : Spaceship) (ls : List Laser) (f : Bool) (t now : ℚ) :
    (laserPassPlayer p ls f t now).1 =
      if (findIdxQ (fun l => l.active && (l.owner_id != p.id) &&
            engine.check_laser_collision l.position p.position) ls).isSome
          && !p.shield_active
      then damageShip p 1 else p := by
  unfold laserPassPlayer
  cases h : findIdxQ (fun l => l.active && (l.owner_id != p.id) &&
      engine.check_laser_collision l.position p.position) ls <;>
    cases hs : p.shield_active <;> simp [h, hs]

theorem damageShip_lifes (p : Spaceship) (k : ℤ) :
    (damageShip p k).lifes = p.lifes - k := rfl

theorem damageShip_active (p : Spaceship) (k : ℤ) :
    (damageShip p k).active = if p.lifes - k ≤ 0 then false else p.active := rfl

theorem stepPlayer_cases (p : Spaceship) (ms : List Mine) (ls : List Laser)
    (f : Bool) (t now : ℚ) :
    stepPlayer p ms ls f t now = p ∨
    stepPlayer p ms ls f t now = damageShip p 3 ∨
    stepPlayer p ms ls f t now = damageShip p 1 ∨
    stepPlayer p ms ls f t now = damageShip (damageShip p 3) 1 := by
  unfold stepPlayer
  by_cases ha : p.active = true
  · simp only [ha, Bool.not_true, Bool.false_eq_true, if_false]
    rw [laserPass_one, minePass_one]
    split <;> split <;> tauto
  · have ha' : p.active = false := by
      cases hb : p.active
      · rfl
      · exact absurd hb ha
    simp [ha']

theorem stepPlayer_inactive (p : Spaceship) (ms : List Mine) (ls : List Laser)
    (f : Bool) (t now : ℚ) (h : p.active = false) :
    stepPlayer p ms ls f t now = p := by
  simp [stepPlayer, h]

theorem stepPlayer_shield (p : Spaceship) (ms : List Mine) (ls : List Laser)
    (f : Bool) (t now : ℚ) (h : p.shield_active = true) :
    stepPlayer p ms ls f t now = p := by
  unfold stepPlayer
  by_cases ha : p.active = true
  · simp only [ha, Bool.not_true, Bool.false_eq_true, if_false]
    rw [laserPass_one, minePass_one, if_neg (by simp [h]), if_neg (by simp [h])]
  · have ha' : p.active = false := by
      cases hb : p.active
      · rfl
      · exact absurd hb ha
    simp [ha']

theorem stepPlayer_fields (p : Spaceship) (ms : List Mine) (ls : List Laser)
    (f : Bool) (t now : ℚ) :
    (stepPlayer p ms ls f t now).id = p.id ∧
    (stepPlayer p ms ls f t now).name = p.name ∧
    (stepPlayer p ms ls f t now).position = p.position ∧
    (stepPlayer p ms ls f t now).rotation = p.rotation ∧
    (stepPlayer p ms ls f t now).shield_active = p.shield_active ∧
    (stepPlayer p ms ls f t now).shield_available = p.shield_available ∧
    (stepPlayer p ms ls f t now).shield_used = p.shield_used ∧
    (stepPlayer p ms ls f t now).shield_start_time = p.shield_start_time := by
  rcases stepPlayer_cases p ms ls f t now with h | h | h | h <;> rw [h] <;>
    simp [damageShip]

theorem stepPlayer_active_iff (p : Spaceship) (ms : List Mine)
    (ls : List Laser) (f : Bool) (t now : ℚ) :
    (p.active = true ∧ (stepPlayer p ms ls f t now).active = false) ↔
      ((stepPlayer p ms ls f t now).lifes < p.lifes ∧
       (stepPlayer p ms ls f t now).lifes ≤ 0) := by
  by_cases ha : p.active = true
  · by_cases hs : p.shield_active = true
    · rw [stepPlayer_shield p ms ls f t now hs]
      simp [ha]
    · have hs' : p.shield_active = false := by
        cases hb : p.shield_active
        · rfl
        · exact absurd hb hs
      have hstep : stepPlayer p ms ls f t now =
          (laserPassPlayer (minePassPlayer p ms f t now).1 ls
            (minePassPlayer p ms f t now).2.2.1
            (minePassPlayer p ms f t now).2.2.2 now).1 := by
        unfold stepPlayer
        simp [ha]
      by_cases hm : (findIdxQ (fun m =>
          engine.check_mine_collision p.position m.position) ms).isSome = true
      · have h1 : (minePassPlayer p ms f t now).1 = damageShip p 3 := by
          rw [minePass_one, if_pos (by simp [hm, hs'])]
        rw [h1, laserPass_one] at hstep
        have hfun : (fun l : Laser => l.active &&
              (l.owner_id != (damageShip p 3).id) &&
              engine.check_laser_collision l.position (damageShip p 3).position)
            = (fun l : Laser => l.active && (l.owner_id != p.id) &&
              engine.check_laser_collision l.position p.position) := rfl
        have hsh : (damageShip p 3).shield_active = p.shield_active := rfl
        rw [hfun, hsh] at hstep
        by_cases hl : (findIdxQ (fun l => l.active &&
            (l.owner_id != p.id) &&
            engine.check_laser_collision l.position p.position) ls).isSome = true
        · rw [if_pos (by simp [hl, hs'])] at hstep
          rw [hstep]
          simp only [damageShip_lifes, damageShip_active, ha]
          split_ifs <;> simp <;> omega
        · rw [if_neg (by simp [hl])] at hstep
          rw [hstep]
          simp only [damageShip_lifes, damageShip_active, ha]
          split_ifs <;> simp <;> omega
      · have h1 : (minePassPlayer p ms f t now).1 = p := by
          rw [minePass_one, if_neg (by simp [hm])]
        rw [h1, laserPass_one] at hstep
        by_cases hl : (findIdxQ (fun l => l.active && (l.owner_id != p.id) &&
            engine.check_laser_collision l.position p.position) ls).isSome = true
        · rw [if_pos (by simp [hl, hs'])] at hstep
          rw [hstep]
          simp only [damageShip_lifes, damageShip_active, ha]
          split_ifs <;> simp <;> omega
        · rw [if_neg (by simp [hl, hs'])] at hstep
          rw [hstep]
          simp [ha]
  · have ha' : p.active = false := by
      cases hb : p.active
      · rfl
      · exact absurd hb ha
    rw [stepPlayer_inactive p ms ls f t now ha']
    simp [ha']

theorem checkCollisionsAux_lookup (now : ℚ) (pid : String)
    (players : List (String × Spaceship)) :
    ∀ (mines : List Mine) (lasers : List Laser) (flash : Bool) (flashT : ℚ)
      (p : Spaceship), players.lookup pid = some p →
      ∃ ms ls f t,
        (checkCollisionsAux now players mines lasers flash flashT).1.lookup pid
          = some (stepPlayer p ms ls f t now) := by
  induction players with
  | nil =>
    intro _ _ _ _ p h
    simp [List.lookup] at h
  | cons head rest ih =>
    obtain ⟨k, q⟩ := head
    intro mines lasers flash flashT p h
    rw [lookup_cons] at h
    by_cases ha : q.active = true
    · simp only [checkCollisionsAux, ha, Bool.not_true, Bool.false_eq_true,
        if_false]
      by_cases hk : pid = k
      · rw [if_pos hk] at h
        injection h with h
        refine ⟨mines, lasers, flash, flashT, ?_⟩
        rw [lookup_cons, if_pos hk]
        rw [← h]
        unfold stepPlayer
        simp [ha]
      · rw [if_neg hk] at h
        simp only [lookup_cons, hk, if_false]
        exact ih _ _ _ _ p h
    · have ha' : q.active = false := by
        cases hb : q.active
        · rfl
        · exact absurd hb ha
      simp only [checkCollisionsAux, ha', Bool.not_false, if_true]
      by_cases hk : pid = k
      · rw [if_pos hk] at h
        injection h with h
        refine ⟨mines, lasers, flash, flashT, ?_⟩
        rw [lookup_cons, if_pos hk, ← h,
          stepPlayer_inactive q mines lasers flash flashT now ha']
      · rw [if_neg hk] at h
        simp only [lookup_cons, hk, if_false]
        exact ih _ _ _ _ p h

theorem expireShield_fields (now : ℚ) (p : Spaceship) :
    (expireShield now p).id = p.id ∧ (expireShield now p).name = p.name ∧
    (expireShield now p).position = p.position ∧
    (expireShield now p).rotation = p.rotation ∧
    (expireShield now p).lifes = p.lifes ∧
    (expireShield now p).active = p.active ∧
    (expireShield now p).shield_available = p.shield_available ∧
    (expireShield now p).shield_used = p.shield_used := by
  unfold expireShield
  split <;> simp

theorem check_collisions_lookup (s : GameState) (now : ℚ) (pid : String)
    (p : Spaceship) (hp : s.players.lookup pid = some p) :
    ∃ ms ls f t,
      (s.check_collisions now).players.lookup pid
        = some (stepPlayer p ms ls f t now) := by
  unfold GameState.check_collisions
  exact checkCollisionsAux_lookup now pid s.players s.mines s.lasers
    s.is_flashing s.flash_start_time p hp

theorem update_lookup (s : GameState) (dt now : ℚ) (pid : String)
    (p : Spaceship) (hp : s.players.lookup pid = some p) :
    (s.update dt now).players.lookup pid = some p ∨
    ∃ ms ls f t,
      (s.update dt now).players.lookup pid
        = some (stepPlayer (expireShield now p) ms ls f t now) := by
  unfold GameState.update
  by_cases hg : s.game_over = true
  · left
    rw [if_pos hg]
    exact hp
  · right
    rw [if_neg hg]
    have h1 : (s.players.map (fun q => (q.1, expireShield now q.2))).lookup pid
        = some (expireShield now p) := by
      rw [lookup_map_value (expireShield now) pid s.players, hp]
      rfl
    exact check_collisions_lookup _ now pid (expireShield now p) h1

theorem deactivateAt_kinematics :
    ∀ (ls : List Laser) (i : Nat),
      (deactivateAt ls i).map
          (fun l => (l.position, l.direction, l.owner_id, l.speed)) =
        ls.map (fun l => (l.position, l.direction, l.owner_id, l.speed))
  | [], _ => rfl
  | l :: rest, 0 => by simp [deactivateAt]
  | l :: rest, n + 1 => by
      simp [deactivateAt, deactivateAt_kinematics rest n]

theorem laserPass_kinematics (p : Spaceship) (ls : List Laser) (f : Bool)
    (t now : ℚ) :
    ((laserPassPlayer p ls f t now).2.1).map
        (fun l => (l.position, l.direction, l.owner_id, l.speed)) =
      ls.map (fun l => (l.position, l.direction, l.owner_id, l.speed)) := by
  unfold laserPassPlayer
  cases h : findIdxQ (fun l => l.active && (l.owner_id != p.id) &&
      engine.check_laser_collision l.position p.position) ls <;>
    cases hs : p.shield_active <;> simp [h, hs, deactivateAt_kinematics]

theorem checkCollisionsAux_kinematics (now : ℚ) :
    ∀ (players : List (String × Spaceship)) (mines : List Mine)
      (lasers : List Laser) (flash : Bool) (flashT : ℚ),
      ((checkCollisionsAux now players mines lasers flash flashT).2.2.1).map
          (fun l => (l.position, l.direction, l.owner_id, l.speed)) =
        lasers.map (fun l => (l.position, l.direction, l.owner_id, l.speed))
  | [], _, _, _, _ => rfl
  | (k, q) :: rest, mines, lasers, flash, flashT => by
      by_cases ha : q.active = true
      · simp only [checkCollisionsAux, ha, Bool.not_true, Bool.false_eq_true,
          if_false]
        rw [checkCollisionsAux_kinematics now rest _ _ _ _,
          laserPass_kinematics]
      · have ha' : q.active = false := by
          cases hb : q.active
          · rfl
          · exact absurd hb ha
        simp only [checkCollisionsAux, ha', Bool.not_false, if_true]
        rw [checkCollisionsAux_kinematics now rest _ _ _ _]

theorem check_collisions_kinematics (s : GameState) (now : ℚ) :
    ((s.check_collisions now).lasers).map
        (fun l => (l.position, l.direction, l.owner_id, l.speed)) =
      s.lasers.map (fun l => (l.position, l.direction, l.owner_id, l.speed)) := by
  unfold GameState.check_collisions
  exact checkCollisionsAux_kinematics now s.players s.mines s.lasers
    s.is_flashing s.flash_start_time

theorem findIdxQ_eq_none {α : Type} (pred : α → Bool) :
    ∀ l : List α, (∀ a ∈ l, pred a = false) → findIdxQ pred l = none
  | [], _ => rfl
  | a :: rest, h => by
      have ha : pred a = false := h a (List.mem_cons_self a rest)
      simp [findIdxQ, ha,
        findIdxQ_eq_none pred rest (fun b hb => h b (List.mem_cons_of_mem a hb))]

theorem bool_eq_false {b : Bool} (h : ¬ b = true) : b = false := by
  cases hb : b
  · rfl
  · exact absurd hb h

theorem truncQ_intCast (n : ℤ) : truncQ ((n : ℚ)) = n := by
  unfold truncQ
  split <;> simp

theorem is_valid_move_int (tx ty : ℤ) (walls : List Position) :
    engine.is_valid_move ⟨(tx : ℚ), (ty : ℚ)⟩ walls = true ↔
      ((⟨(tx : ℚ), (ty : ℚ)⟩ : Position) ∉ walls ∧
       0 ≤ tx ∧ tx < GRID_WIDTH ∧ 0 ≤ ty ∧ ty < GRID_HEIGHT) := by
  unfold PhysicsEngine.is_valid_move PhysicsEngine.check_wall_collision
  have hx : truncQ ((⟨(tx : ℚ), (ty : ℚ)⟩ : Position).x) = tx := truncQ_intCast tx
  have hy : truncQ ((⟨(tx : ℚ), (ty : ℚ)⟩ : Position).y) = ty := truncQ_intCast ty
  rw [hx, hy]
  by_cases hw : (⟨(tx : ℚ), (ty : ℚ)⟩ : Position) ∈ walls
  · simp [hw]
  · have hgw : engine.world_width / engine.cell_size = GRID_WIDTH := rfl
    have hgh : engine.world_height / engine.cell_size = GRID_HEIGHT := rfl
    simp only [hw, decide_False, Bool.false_eq_true, if_false, hgw, hgh]
    constructor
    · intro h
      split at h
      · exact absurd h (by simp)
      · rename_i hcond
        push_neg at hcond
        obtain ⟨h1, h2, h3, h4⟩ := hcond
        refine ⟨(by simp [hw]), ?_, ?_, ?_, ?_⟩
        · exact_mod_cast h1
        · exact_mod_cast h2
        · exact_mod_cast h3
        · exact_mod_cast h4
    · rintro ⟨-, h1, h2, h3, h4⟩
      rw [if_neg]
      push_neg
      constructor
      · exact_mod_cast h1
      constructor
      · exact_mod_cast h2
      constructor
      · exact_mod_cast h3
      · exact_mod_cast h4

theorem move_player_spec (s : GameState) (pid : String) (p : Spaceship)
    (hp : s.players.lookup pid = some p) :
    ((GameState.move_player s pid).1 = true ↔
      (p.active = true ∧ engine.is_valid_move
        ⟨(truncQ (p.position.x + (get_direction_vector p.rotation).x) : ℚ),
         (truncQ (p.position.y + (get_direction_vector p.rotation).y) : ℚ)⟩
        s.walls = true))
  ∧ ((GameState.move_player s pid).1 = false →
      (GameState.move_player s pid).2 = s)
  ∧ ((GameState.move_player s pid).1 = true →
      (GameState.move_player s pid).2.players.lookup pid =
        some { p with position :=
          ⟨(truncQ (p.position.x + (get_direction_vector p.rotation).x) : ℚ),
           (truncQ (p.position.y + (get_direction_vector p.rotation).y) : ℚ)⟩ }) := by
  unfold GameState.move_player GameState.getPlayer
  rw [hp]
  by_cases ha : p.active = true
  · by_cases hv : engine.is_valid_move
        ⟨(truncQ (p.position.x + (get_direction_vector p.rotation).x) : ℚ),
         (truncQ (p.position.y + (get_direction_vector p.rotation).y) : ℚ)⟩
        s.walls = true
    · simp only [ha, Bool.not_true, Bool.false_eq_true, if_false, hv, if_true]
      refine ⟨by simp [ha], by simp, fun _ => ?_⟩
      rw [lookup_setPlayer, if_pos rfl, hp]
      rfl
    · have hv' := bool_eq_false hv
      simp [ha, hv']
  · have ha' := bool_eq_false ha
    simp [ha']

theorem lookup_some_any {β : Type} (k : String) (v : β) :
    ∀ l : List (String × β), l.lookup k = some v →
      l.any (fun q => decide (q.1 = k)) = true
  | [], h => by simp [List.lookup] at h
  | (k', w) :: rest, h => by
      rw [lookup_cons] at h
      rw [List.any_cons]
      by_cases hk : k = k'
      · have : (decide ((k', w).1 = k)) = true := by simp [hk.symm]
        rw [this, Bool.true_or]
      · rw [if_neg hk] at h
        rw [lookup_some_any k v rest h, Bool.or_true]

/-- Case analysis of what one external operation can do to one registered
player's record: it is dropped by `remove` of that very id, kept as is,
moved (only while active), rotated (only while active), shield-activated
(only with a fresh shield), or processed by the tick's shield-expiry and
collision pass. -/
theorem applyOp_lookup_cases (s : GameState) (op : Op) (pid : String)
    (p : Spaceship) (hp : s.players.lookup pid = some p) :
    (op = Op.remove pid ∧ (applyOp s op).players.lookup pid = none) ∨
    (applyOp s op).players.lookup pid = some p ∨
    (p.active = true ∧ ∃ pos,
      (applyOp s op).players.lookup pid = some { p with position := pos }) ∨
    (p.active = true ∧ ∃ r,
      (applyOp s op).players.lookup pid = some { p with rotation := r }) ∨
    (p.shield_used = false ∧ p.shield_available = true ∧ ∃ t,
      (applyOp s op).players.lookup pid =
        some { p with shield_active := true, shield_available := false,
                      shield_used := true, shield_start_time := t }) ∨
    (∃ ms ls f t now,
      (applyOp s op).players.lookup pid =
        some (stepPlayer (expireShield now p) ms ls f t now)) := by
  cases op with
  | add pid2 name =>
    right; left
    show (GameState.add_player s pid2 name).2.players.lookup pid = some p
    unfold GameState.add_player
    cases h1 : s.players.any (fun q => decide (q.1 = pid2))
    · simp only [Bool.false_eq_true, if_false]
      cases h2 : (GameState.SpawnHelpers.spawn_positions.filter
          (GameState.SpawnHelpers.spawnFree s)).head?
      · simp only [h2]
        exact hp
      · simp only [h2]
        exact lookup_append_some pid p s.players _ hp
    · simp only [if_true]
      exact hp
  | remove pid2 =>
    show _ ∨ (GameState.remove_player s pid2).2.players.lookup pid = some p ∨ _
    by_cases hk : pid = pid2
    · subst hk
      left
      refine ⟨rfl, ?_⟩
      show (GameState.remove_player s pid).2.players.lookup pid = none
      unfold GameState.remove_player
      rw [if_pos (lookup_some_any pid p s.players hp)]
      exact lookup_filter_self pid s.players
    · right; left
      unfold GameState.remove_player
      cases h1 : s.players.any (fun q => decide (q.1 = pid2))
      · simp only [Bool.false_eq_true, if_false]
        exact hp
      · simp only [if_true]
        rw [lookup_filter_ne pid2 pid hk s.players]
        exact hp
  | move pid2 =>
    show _ ∨ (GameState.move_player s pid2).2.players.lookup pid = some p ∨ _
    unfold GameState.move_player GameState.getPlayer
    cases hq : s.players.lookup pid2 with
    | none =>
      right; left
      exact hp
    | some q =>
      cases ha : q.active with
      | false =>
        right; left
        simp only [ha, Bool.not_false, if_true]
        exact hp
      | true =>
        by_cases hv : engine.is_valid_move
            ⟨(truncQ (q.position.x + (get_direction_vector q.rotation).x) : ℚ),
             (truncQ (q.position.y + (get_direction_vector q.rotation).y) : ℚ)⟩
            s.walls = true
        · by_cases hk : pid = pid2
          · subst hk
            rw [hp] at hq
            injection hq with hq
            subst hq
            right; right; left
            have happ : applyOp s (Op.move pid) = s.setPlayer pid
                { p with position :=
                  ⟨(truncQ (p.position.x + (get_direction_vector p.rotation).x) : ℚ),
                   (truncQ (p.position.y + (get_direction_vector p.rotation).y) : ℚ)⟩ } := by
              show (GameState.move_player s pid).2 = _
              unfold GameState.move_player GameState.getPlayer
              rw [hp]
              simp only [ha, Bool.not_true, Bool.false_eq_true, if_false, hv,
                if_true]
            refine ⟨ha,
              ⟨(truncQ (p.position.x + (get_direction_vector p.rotation).x) : ℚ),
               (truncQ (p.position.y + (get_direction_vector p.rotation).y) : ℚ)⟩, ?_⟩
            rw [happ, lookup_setPlayer, if_pos rfl, hp]
            rfl
          · right; left
            simp only [ha, Bool.not_true, Bool.false_eq_true, if_false, hv,
              if_true]
            rw [lookup_setPlayer, if_neg hk]
            exact hp
        · right; left
          have hv' := bool_eq_false hv
          simp only [ha, Bool.not_true, Bool.false_eq_true, if_false, hv',
            if_false]
          exact hp
  | rotate pid2 dir =>
    show _ ∨ (GameState.rotate_player s pid2 dir).2.players.lookup pid = some p ∨ _
    unfold GameState.rotate_player GameState.getPlayer
    cases hq : s.players.lookup pid2 with
    | none =>
      right; left
      exact hp
    | some q =>
      cases ha : q.active with
      | false =>
        right; left
        simp only [ha, Bool.not_false, if_true]
        exact hp
      | true =>
        simp only [ha, Bool.not_true, Bool.false_eq_true, if_false]
        by_cases hd1 : dir = "right"
        · rw [if_pos hd1]
          by_cases hk : pid = pid2
          · subst hk
            rw [hp] at hq
            injection hq with hq
            subst hq
            right; right; right; left
            have happ : applyOp s (Op.rotate pid dir) = s.setPlayer pid
                { p with rotation := (p.rotation + 90) % 360 } := by
              show (GameState.rotate_player s pid dir).2 = _
              unfold GameState.rotate_player GameState.getPlayer
              rw [hp]
              simp only [ha, Bool.not_true, Bool.false_eq_true, if_false]
              rw [if_pos hd1]
            refine ⟨ha, (p.rotation + 90) % 360, ?_⟩
            rw [happ, lookup_setPlayer, if_pos rfl, hp]
            rfl
          · right; left
            rw [lookup_setPlayer, if_neg hk]
            exact hp
        · rw [if_neg hd1]
          by_cases hd2 : dir = "left"
          · rw [if_pos hd2]
            by_cases hk : pid = pid2
            · subst hk
              rw [hp] at hq
              injection hq with hq
              subst hq
              right; right; right; left
              have happ : applyOp s (Op.rotate pid dir) = s.setPlayer pid
                  { p with rotation := (p.rotation - 90) % 360 } := by
                show (GameState.rotate_player s pid dir).2 = _
                unfold GameState.rotate_player GameState.getPlayer
                rw [hp]
                simp only [ha, Bool.not_true, Bool.false_eq_true, if_false]
                rw [if_neg hd1, if_pos hd2]
              refine ⟨ha, (p.rotation - 90) % 360, ?_⟩
              rw [happ, lookup_setPlayer, if_pos rfl, hp]
              rfl
            · right; left
              rw [lookup_setPlayer, if_neg hk]
              exact hp
          · rw [if_neg hd2]
            right; left
            exact hp
  | fire pid2 =>
    right; left
    show (GameState.fire_laser s pid2).2.players.lookup pid = some p
    unfold GameState.fire_laser GameState.getPlayer
    cases hq : s.players.lookup pid2 with
    | none => exact hp
    | some q =>
      cases ha : q.active
      · simp only [ha, Bool.not_false, if_true]
        exact hp
      · simp only [ha, Bool.not_true, Bool.false_eq_true, if_false]
        exact hp
  | shield pid2 now =>
    show _ ∨ (GameState.activate_shield s pid2 now).2.players.lookup pid = some p ∨ _
    unfold GameState.activate_shield GameState.getPlayer
    cases hq : s.players.lookup pid2 with
    | none =>
      right; left
      exact hp
    | some q =>
      dsimp only
      cases hc : (!q.shield_available || q.shield_used)
      · simp only [hc, Bool.false_eq_true, if_false]
        by_cases hk : pid = pid2
        · subst hk
          rw [hp] at hq
          injection hq with hq
          subst hq
          right; right; right; right; left
          have hu : p.shield_used = false := by
            cases hb : p.shield_used
            · rfl
            · rw [hb, Bool.or_true] at hc
              cases hc
          have hav : p.shield_available = true := by
            cases hb : p.shield_available
            · rw [hb] at hc
              cases hc
            · rfl
          refine ⟨hu, hav, now, ?_⟩
          have happ : applyOp s (Op.shield pid now) = s.setPlayer pid
              { p with shield_active := true, shield_available := false,
                       shield_used := true, shield_start_time := now } := by
            show (GameState.activate_shield s pid now).2 = _
            unfold GameState.activate_shield GameState.getPlayer
            rw [hp]
            dsimp only
            rw [hc, if_neg Bool.false_ne_true]
          rw [happ, lookup_setPlayer, if_pos rfl, hp]
          rfl
        · right; left
          rw [lookup_setPlayer, if_neg hk]
          exact hp
      · right; left
        simp only [hc, if_true]
        exact hp
  | tick dt now =>
    show _ ∨ (GameState.update s dt now).players.lookup pid = some p ∨ _
    rcases update_lookup s dt now pid p hp with h | ⟨ms, ls, f, t, h⟩
    · right; left
      exact h
    · right; right; right; right; right
      exact ⟨ms, ls, f, t, now, h⟩

theorem applyOp_shield_flags (s : GameState) (op : Op) (pid : String)
    (p : Spaceship) (hp : s.players.lookup pid = some p)
    (hu : p.shield_used = true) (hav : p.shield_available = false) :
    ∀ p', (applyOp s op).players.lookup pid = some p' →
      p'.shield_used = true ∧ p'.shield_available = false := by
  intro p' hp'
  rcases applyOp_lookup_cases s op pid p hp with ⟨-, h⟩ | h | ⟨-, pos, h⟩ |
    ⟨-, r, h⟩ | ⟨h5, -, -⟩ | ⟨ms, ls, f, t, now, h⟩
  · rw [h] at hp'
    cases hp'
  · rw [h] at hp'
    injection hp' with he
    subst he
    exact ⟨hu, hav⟩
  · rw [h] at hp'
    injection hp' with he
    subst he
    exact ⟨hu, hav⟩
  · rw [h] at hp'
    injection hp' with he
    subst he
    exact ⟨hu, hav⟩
  · rw [hu] at h5
    cases h5
  · rw [h] at hp'
    injection hp' with he
    subst he
    have hf := stepPlayer_fields (expireShield now p) ms ls f t now
    have he2 := expireShield_fields now p
    constructor
    · rw [hf.2.2.2.2.2.2.1, he2.2.2.2.2.2.2.2]
      exact hu
    · rw [hf.2.2.2.2.2.1, he2.2.2.2.2.2.2.1]
      exact hav

theorem applyOp_registered (s : GameState) (op : Op) (pid : String)
    (p : Spaceship) (hp : s.players.lookup pid = some p)
    (hop : op ≠ Op.remove pid) :
    ∃ p', (applyOp s op).players.lookup pid = some p' := by
  rcases applyOp_lookup_cases s op pid p hp with ⟨he, -⟩ | h | ⟨-, pos, h⟩ |
    ⟨-, r, h⟩ | ⟨-, -, t, h⟩ | ⟨ms, ls, f, t, now, h⟩
  · exact absurd he hop
  · exact ⟨_, h⟩
  · exact ⟨_, h⟩
  · exact ⟨_, h⟩
  · exact ⟨_, h⟩
  · exact ⟨_, h⟩

theorem foldl_shield_flags (pid : String) :
    ∀ (ops : List Op) (s : GameState) (p : Spaceship),
      s.players.lookup pid = some p → p.shield_used = true →
      p.shield_available = false → Op.remove pid ∉ ops →
      ∃ p', (ops.foldl applyOp s).players.lookup pid = some p' ∧
        p'.shield_used = true ∧ p'.shield_available = false
  | [], s, p, hp, hu, hav, _ => ⟨p, hp, hu, hav⟩
  | op :: rest, s, p, hp, hu, hav, hmem => by
      have hop : op ≠ Op.remove pid := by
        intro he
        exact hmem (he ▸ List.mem_cons_self op rest)
      obtain ⟨p1, hp1⟩ := applyOp_registered s op pid p hp hop
      obtain ⟨hu1, hav1⟩ := applyOp_shield_flags s op pid p hp hu hav p1 hp1
      have hmem' : Op.remove pid ∉ rest := fun hh =>
        hmem (List.mem_cons_of_mem op hh)
      exact foldl_shield_flags pid rest (applyOp s op) p1 hp1 hu1 hav1 hmem'

theorem activate_shield_fails_of_used (s : GameState) (pid : String)
    (now : ℚ) (p : Spaceship) (hp : s.players.lookup pid = some p)
    (hu : p.shield_used = true) :
    (GameState.activate_shield s pid now).1 = false := by
  unfold GameState.activate_shield GameState.getPlayer
  rw [hp]
  dsimp only
  rw [hu, Bool.or_true, if_pos rfl]

theorem activate_shield_success_sets (s : GameState) (pid : String) (now : ℚ) :
    (GameState.activate_shield s pid now).1 = true →
    ∀ p', (GameState.activate_shield s pid now).2.players.lookup pid = some p' →
      p'.shield_used = true ∧ p'.shield_available = false := by
  unfold GameState.activate_shield GameState.getPlayer
  cases hp : s.players.lookup pid with
  | none =>
    intro h
    exact absurd h Bool.false_ne_true
  | some q =>
    dsimp only
    cases hc : (!q.shield_available || q.shield_used)
    · rw [if_neg Bool.false_ne_true]
      intro _ p' hp'
      rw [lookup_setPlayer, if_pos rfl, hp] at hp'
      have he := Option.some.inj hp'
      subst he
      exact ⟨rfl, rfl⟩
    · rw [if_pos rfl]
      intro h
      exact absurd h Bool.false_ne_true

theorem active_lifes_iff_unchanged (p p' : Spaceship)
    (hact : p'.active = p.active) (hlif : p'.lifes = p.lifes) :
    ((p.active = true ∧ p'.active = false) ↔
      (p'.lifes < p.lifes ∧ p'.lifes ≤ 0)) := by
  rw [hact, hlif]
  constructor
  · rintro ⟨h1, h2⟩
    rw [h1] at h2
    cases h2
  · rintro ⟨h1, -⟩
    exact absurd h1 (lt_irrefl _)

/-- C2: `activate_shield` returns success at most once per registered
lifetime of a ship: (1) a successful call leaves `shield_used = true` and
`shield_available = false`; (2) no operation of the API (command or tick)
ever resets these two flags on a registered ship; (3) a call on a ship
with `shield_used = true` fails; (4) hence after any sequence of
operations that never unregisters the ship, a later `activate_shield`
call fails regardless of the elapsed time — in particular after the timed
`shield_active` flag has expired. -/
theorem shield_single_use :
    (∀ (s : GameState) (pid : String) (now : ℚ),
      (GameState.activate_shield s pid now).1 = true →
      ∀ p', (GameState.activate_shield s pid now).2.players.lookup pid = some p' →
        p'.shield_used = true ∧ p'.shield_available = false)
  ∧ (∀ (s : GameState) (op : Op) (pid : String) (p : Spaceship),
      s.players.lookup pid = some p → p.shield_used = true →
      p.shield_available = false →
      ∀ p', (applyOp s op).players.lookup pid = some p' →
        p'.shield_used = true ∧ p'.shield_available = false)
  ∧ (∀ (s : GameState) (pid : String) (now : ℚ) (p : Spaceship),
      s.players.lookup pid = some p → p.shield_used = true →
      (GameState.activate_shield s pid now).1 = false)
  ∧ (∀ (s : GameState) (ops : List Op) (pid : String) (p : Spaceship)
      (now : ℚ),
      s.players.lookup pid = some p → p.shield_used = true →
      p.shield_available = false → Op.remove pid ∉ ops →
      (GameState.activate_shield (ops.foldl applyOp s) pid now).1 = false) :=
  ⟨activate_shield_success_sets,
   fun s op pid p hp hu hav => applyOp_shield_flags s op pid p hp hu hav,
   fun s pid now p hp hu => activate_shield_fails_of_used s pid now p hp hu,
   fun s ops pid p now hp hu hav hmem => by
     obtain ⟨p', hp', hu', -⟩ := foldl_shield_flags pid ops s p hp hu hav hmem
     exact activate_shield_fails_of_used _ pid now p' hp' hu'⟩

/-- C5: over any single operation (command or tick), a registered ship's
`active` flag falls from true to false exactly when the operation strictly
decreased its `lifes` counter to a value ≤ 0; and a ship whose `active`
flag is already false keeps its position, rotation and lives unchanged by
every command and every tick. -/
theorem elimination (s : GameState) (op : Op) (pid : String)
    (p p' : Spaceship) (hp : s.players.lookup pid = some p)
    (hp' : (applyOp s op).players.lookup pid = some p') :
    ((p.active = true ∧ p'.active = false) ↔
      (p'.lifes < p.lifes ∧ p'.lifes ≤ 0))
  ∧ (p.active = false →
      p'.position = p.position ∧ p'.rotation = p.rotation ∧
        p'.lifes = p.lifes) := by
  rcases applyOp_lookup_cases s op pid p hp with ⟨-, h⟩ | h | ⟨hact, pos, h⟩ |
    ⟨hact, r, h⟩ | ⟨-, -, t, h⟩ | ⟨ms, ls, f, t, now, h⟩
  · rw [h] at hp'
    cases hp'
  · rw [h] at hp'
    injection hp' with he
    subst he
    exact ⟨active_lifes_iff_unchanged p p rfl rfl, fun _ => ⟨rfl, rfl, rfl⟩⟩
  · rw [h] at hp'
    injection hp' with he
    subst he
    refine ⟨active_lifes_iff_unchanged _ _ rfl rfl, fun hf => ?_⟩
    rw [hf] at hact
    cases hact
  · rw [h] at hp'
    injection hp' with he
    subst he
    refine ⟨active_lifes_iff_unchanged _ _ rfl rfl, fun hf => ?_⟩
    rw [hf] at hact
    cases hact
  · rw [h] at hp'
    injection hp' with he
    subst he
    exact ⟨active_lifes_iff_unchanged _ _ rfl rfl, fun _ => ⟨rfl, rfl, rfl⟩⟩
  · rw [h] at hp'
    injection hp' with he
    subst he
    have he2 := expireShield_fields now p
    constructor
    · have hiff := stepPlayer_active_iff (expireShield now p) ms ls f t now
      rw [he2.2.2.2.2.2.1, he2.2.2.2.2.1] at hiff
      exact hiff
    · intro hf
      have hstep := stepPlayer_inactive (expireShield now p) ms ls f t now
        (by rw [he2.2.2.2.2.2.1]; exact hf)
      rw [hstep]
      exact ⟨he2.2.2.1, he2.2.2.2.1, he2.2.2.2.2.1⟩

/-- C1: for every registered ship (with its integral position and one of
the four legal rotations, both maintained by the API), `move_player`
changes the ship's position iff the ship is active and the target cell —
the current position plus the unit vector of the current rotation — lies
inside `[0, GRID_WIDTH) × [0, GRID_HEIGHT)` and is not a member of the
wall set; in every other case the call returns failure and the entire
state, hence the ship's position, is exactly as before the call. -/
theorem move_player_legality (s : GameState) (pid : String) (p : Spaceship)
    (a b : ℤ) (hp : s.players.lookup pid = some p)
    (hpos : p.position = ⟨(a : ℚ), (b : ℚ)⟩)
    (hrot : p.rotation = 0 ∨ p.rotation = 90 ∨ p.rotation = 180 ∨
      p.rotation = 270) :
    ((((GameState.move_player s pid).2.players.lookup pid).map
        Spaceship.position ≠ some p.position) ↔
      (p.active = true ∧
        0 ≤ truncQ (p.position.x + (get_direction_vector p.rotation).x) ∧
        truncQ (p.position.x + (get_direction_vector p.rotation).x) <
          GRID_WIDTH ∧
        0 ≤ truncQ (p.position.y + (get_direction_vector p.rotation).y) ∧
        truncQ (p.position.y + (get_direction_vector p.rotation).y) <
          GRID_HEIGHT ∧
        (⟨(truncQ (p.position.x + (get_direction_vector p.rotation).x) : ℚ),
          (truncQ (p.position.y + (get_direction_vector p.rotation).y) : ℚ)⟩ :
          Position) ∉ s.walls))
  ∧ ((GameState.move_player s pid).1 = true ↔
      (p.active = true ∧
        0 ≤ truncQ (p.position.x + (get_direction_vector p.rotation).x) ∧
        truncQ (p.position.x + (get_direction_vector p.rotation).x) <
          GRID_WIDTH ∧
        0 ≤ truncQ (p.position.y + (get_direction_vector p.rotation).y) ∧
        truncQ (p.position.y + (get_direction_vector p.rotation).y) <
          GRID_HEIGHT ∧
        (⟨(truncQ (p.position.x + (get_direction_vector p.rotation).x) : ℚ),
          (truncQ (p.position.y + (get_direction_vector p.rotation).y) : ℚ)⟩ :
          Position) ∉ s.walls))
  ∧ ((GameState.move_player s pid).1 = false →
      (GameState.move_player s pid).2 = s) := by
  obtain ⟨hvalid_iff, hfail, hsucc⟩ := move_player_spec s pid p hp
  have hcase : ∃ ex ey : ℤ,
      ((ex = 0 ∧ ey = -1) ∨ (ex = 1 ∧ ey = 0) ∨ (ex = 0 ∧ ey = 1) ∨
        (ex = -1 ∧ ey = 0)) ∧
      get_direction_vector p.rotation = ⟨(ex : ℚ), (ey : ℚ)⟩ := by
    rcases hrot with h | h | h | h
    · exact ⟨0, -1, Or.inl ⟨rfl, rfl⟩, by rw [h]; decide⟩
    · exact ⟨1, 0, Or.inr (Or.inl ⟨rfl, rfl⟩), by rw [h]; decide⟩
    · exact ⟨0, 1, Or.inr (Or.inr (Or.inl ⟨rfl, rfl⟩)), by rw [h]; decide⟩
    · exact ⟨-1, 0, Or.inr (Or.inr (Or.inr ⟨rfl, rfl⟩)), by rw [h]; decide⟩
  obtain ⟨ex, ey, hunit, hd⟩ := hcase
  have htx : truncQ (p.position.x + (get_direction_vector p.rotation).x) =
      a + ex := by
    rw [hd, hpos]
    show truncQ ((a : ℚ) + (ex : ℚ)) = a + ex
    rw [← Int.cast_add, truncQ_intCast]
  have hty : truncQ (p.position.y + (get_direction_vector p.rotation).y) =
      b + ey := by
    rw [hd, hpos]
    show truncQ ((b : ℚ) + (ey : ℚ)) = b + ey
    rw [← Int.cast_add, truncQ_intCast]
  rw [htx, hty]
  rw [htx, hty] at hvalid_iff hsucc
  have hne : (⟨((a + ex : ℤ) : ℚ), ((b + ey : ℤ) : ℚ)⟩ : Position) ≠
      p.position := by
    rw [hpos]
    intro hcontra
    have hx : ((a + ex : ℤ) : ℚ) = (a : ℚ) := congrArg Position.x hcontra
    have hy : ((b + ey : ℤ) : ℚ) = (b : ℚ) := congrArg Position.y hcontra
    have h2 : a + ex = a := by exact_mod_cast hx
    have h3 : b + ey = b := by exact_mod_cast hy
    rcases hunit with ⟨he1, he2⟩ | ⟨he1, he2⟩ | ⟨he1, he2⟩ | ⟨he1, he2⟩ <;>
      omega
  have hchanged : (((GameState.move_player s pid).2.players.lookup pid).map
      Spaceship.position ≠ some p.position) ↔
      (GameState.move_player s pid).1 = true := by
    constructor
    · intro hch
      cases hb : (GameState.move_player s pid).1
      · exfalso
        apply hch
        rw [hfail hb, hp]
        rfl
      · rfl
    · intro hb
      rw [hsucc hb]
      intro hcon
      exact hne (Option.some.inj hcon)
  have hR : (engine.is_valid_move
      ⟨((a + ex : ℤ) : ℚ), ((b + ey : ℤ) : ℚ)⟩ s.walls = true) ↔
      (0 ≤ a + ex ∧ a + ex < GRID_WIDTH ∧ 0 ≤ b + ey ∧ b + ey < GRID_HEIGHT ∧
       (⟨((a + ex : ℤ) : ℚ), ((b + ey : ℤ) : ℚ)⟩ : Position) ∉ s.walls) := by
    rw [is_valid_move_int]
    constructor
    · rintro ⟨hw, h1, h2, h3, h4⟩
      exact ⟨h1, h2, h3, h4, hw⟩
    · rintro ⟨h1, h2, h3, h4, hw⟩
      exact ⟨hw, h1, h2, h3, h4⟩
  refine ⟨?_, ?_, hfail⟩
  · rw [hchanged, hvalid_iff, hR]
  · rw [hvalid_iff, hR]

/-- C3: a ship whose shield is active takes no life loss from the
collision pass: its whole record is left unchanged by the mine branch and
by the laser branch (hence by the full `_check_collisions`), yet the first
colliding mine is still removed from the mine list and the first colliding
active enemy laser still has its `active` flag cleared. -/
theorem shield_blocks_lives_not_consumption (p : Spaceship)
    (mines : List Mine) (lasers : List Laser) (flash : Bool) (flashT now : ℚ)
    (s : GameState) (pid : String) (hs : p.shield_active = true) :
    ((minePassPlayer p mines flash flashT now).1 = p)
  ∧ (∀ i, findIdxQ (fun m =>
        engine.check_mine_collision p.position m.position) mines = some i →
      (minePassPlayer p mines flash flashT now).2.1 = mines.eraseIdx i)
  ∧ ((laserPassPlayer p lasers flash flashT now).1 = p)
  ∧ (∀ i, findIdxQ (fun l => l.active && (l.owner_id != p.id) &&
        engine.check_laser_collision l.position p.position) lasers = some i →
      (laserPassPlayer p lasers flash flashT now).2.1 = deactivateAt lasers i)
  ∧ (s.players.lookup pid = some p →
      (s.check_collisions now).players.lookup pid = some p) := by
  refine ⟨?_, ?_, ?_, ?_, ?_⟩
  · rw [minePass_one, if_neg (by simp [hs])]
  · intro i hi
    unfold minePassPlayer
    rw [hi]
    simp [hs]
  · rw [laserPass_one, if_neg (by simp [hs])]
  · intro i hi
    unfold laserPassPlayer
    rw [hi]
    simp [hs]
  · intro hp
    obtain ⟨ms, ls, f, t, hh⟩ := check_collisions_lookup s now pid p hp
    rw [hh, stepPlayer_shield p ms ls f t now hs]

/-- C4 counterexample: an active ship with an active shield stands on a
mine's cell; the collision pass removes the mine but does NOT set the
flash flag, contradicting the claim that the flash effect fires regardless
of the shield state. -/
theorem mine_flash_shield_cx :
    ((GameState.check_collisions
      { players := [("a",
          { id := "a", name := "A", position := ⟨5, 5⟩, rotation := 0,
            lifes := 5, active := true, shield_active := true,
            shield_available := false, shield_used := true,
            shield_start_time := 0 })],
        lasers := [], mines := [⟨⟨5, 5⟩⟩], walls := [], game_over := false,
        is_flashing := false, flash_start_time := 0 } 1).is_flashing = false)
  ∧ ((GameState.check_collisions
      { players := [("a",
          { id := "a", name := "A", position := ⟨5, 5⟩, rotation := 0,
            lifes := 5, active := true, shield_active := true,
            shield_available := false, shield_used := true,
            shield_start_time := 0 })],
        lasers := [], mines := [⟨⟨5, 5⟩⟩], walls := [], game_over := false,
        is_flashing := false, flash_start_time := 0 } 1).mines = []) := by
  constructor
  · rfl
  · rfl

/-- C4 (amended): when an active ship's cell equals an active mine's cell,
the collision pass removes the first such mine unconditionally; but both
the life decrement (penalty 3, inactive at lives ≤ 0) and the flash effect
(flag plus timestamp) fire only when the ship's shield is NOT active —
with an active shield neither the lives nor the flash state change. -/
theorem mine_collision_flash (p : Spaceship) (mines : List Mine)
    (flash : Bool) (flashT now : ℚ) (i : Nat)
    (hi : findIdxQ (fun m =>
        engine.check_mine_collision p.position m.position) mines = some i) :
    ((minePassPlayer p mines flash flashT now).2.1 = mines.eraseIdx i)
  ∧ (p.shield_active = false →
      (minePassPlayer p mines flash flashT now).1 =
        { p with lifes := p.lifes - 3,
                 active := if p.lifes - 3 ≤ 0 then false else p.active } ∧
      (minePassPlayer p mines flash flashT now).2.2.1 = true ∧
      (minePassPlayer p mines flash flashT now).2.2.2 = now)
  ∧ (p.shield_active = true →
      (minePassPlayer p mines flash flashT now).1 = p ∧
      (minePassPlayer p mines flash flashT now).2.2.1 = flash ∧
      (minePassPlayer p mines flash flashT now).2.2.2 = flashT) := by
  unfold minePassPlayer
  rw [hi]
  refine ⟨?_, fun hsf => ?_, fun hst => ?_⟩
  · cases hb : p.shield_active <;> simp [hb]
  · simp [hsf, damageShip]
  · simp [hst]

/-- C6 counterexample: starting from an empty arena with two mines on the
spawn cell, a freshly registered ship is hit by one mine per tick and is
eliminated (`active = false`) after two ticks with its shield never used —
and `activate_shield` nevertheless returns success, because the code never
checks the `active` flag. -/
theorem activate_shield_inactive_cx :
    (((([Op.add "p1" none, Op.tick 1 1, Op.tick 1 2]).foldl applyOp
        (GameState.init [] [⟨((15 : ℤ) : ℚ), ((10 : ℤ) : ℚ)⟩,
          ⟨((15 : ℤ) : ℚ), ((10 : ℤ) : ℚ)⟩])).players.lookup "p1").map
      Spaceship.active = some false)
  ∧ (GameState.activate_shield
      ((([Op.add "p1" none, Op.tick 1 1, Op.tick 1 2]).foldl applyOp
        (GameState.init [] [⟨((15 : ℤ) : ℚ), ((10 : ℤ) : ℚ)⟩,
          ⟨((15 : ℤ) : ℚ), ((10 : ℤ) : ℚ)⟩]))) "p1" 3).1 = true := by
  constructor
  · decide
  · decide

/-- C6 (amended): `activate_shield` succeeds iff the ship exists and has
`shield_available = true` and `shield_used = false` — the ship's `active`
flag is NOT checked (an eliminated ship can still activate its shield);
on failure the state is unchanged. -/
theorem activate_shield_spec (s : GameState) (pid : String) (now : ℚ) :
    ((GameState.activate_shield s pid now).1 = true ↔
      ∃ p, s.players.lookup pid = some p ∧ p.shield_available = true ∧
        p.shield_used = false)
  ∧ ((GameState.activate_shield s pid now).1 = false →
      (GameState.activate_shield s pid now).2 = s) := by
  unfold GameState.activate_shield GameState.getPlayer
  cases hp : s.players.lookup pid with
  | none =>
    constructor
    · constructor
      · intro h
        exact absurd h Bool.false_ne_true
      · rintro ⟨p, hcontra, -, -⟩
        cases hcontra
    · intro _
      rfl
  | some q =>
    dsimp only
    cases hav : q.shield_available <;> cases hu : q.shield_used <;>
      simp only [hav, hu, Bool.not_false, Bool.not_true, Bool.or_true,
        Bool.or_false, Bool.true_or, Bool.false_or, if_pos rfl]
    · constructor
      · constructor
        · intro h
          exact absurd h Bool.false_ne_true
        · rintro ⟨p, hcontra, hpav, -⟩
          injection hcontra with he
          subst he
          rw [hav] at hpav
          cases hpav
      · intro _
        rfl
    · constructor
      · constructor
        · intro h
          exact absurd h Bool.false_ne_true
        · rintro ⟨p, hcontra, -, hpu⟩
          injection hcontra with he
          subst he
          rw [hu] at hpu
          cases hpu
      · intro _
        rfl
    · constructor
      · constructor
        · intro _
          exact ⟨q, rfl, hav, hu⟩
        · intro _
          rfl
      · intro hcontra
        exact absurd hcontra.symm Bool.false_ne_true
    · constructor
      · constructor
        · intro h
          exact absurd h Bool.false_ne_true
        · rintro ⟨p, hcontra, -, hpu⟩
          injection hcontra with he
          subst he
          rw [hu] at hpu
          cases hpu
      · intro _
        rfl

/-- C7: a ship is never damaged by its own lasers: if every laser that is
active and cell-collides with the ship is owned by the ship itself, the
laser branch of the collision pass leaves the ship, the laser list and the
flash state completely unchanged. -/
theorem self_laser_immunity (p : Spaceship) (lasers : List Laser)
    (flash : Bool) (flashT now : ℚ)
    (h : ∀ l ∈ lasers, l.active = true →
      engine.check_laser_collision l.position p.position = true →
      l.owner_id = p.id) :
    laserPassPlayer p lasers flash flashT now = (p, lasers, flash, flashT) := by
  have hnone : findIdxQ (fun l => l.active && (l.owner_id != p.id) &&
      engine.check_laser_collision l.position p.position) lasers = none := by
    apply findIdxQ_eq_none
    intro l hl
    by_cases hact : l.active = true
    · by_cases hcol : engine.check_laser_collision l.position p.position = true
      · have hown := h l hl hact hcol
        simp [hact, hcol, hown]
      · have hcol' := bool_eq_false hcol
        simp [hcol']
    · have hact' := bool_eq_false hact
      simp [hact']
  unfold laserPassPlayer
  rw [hnone]

/-- C8: every command is a total function returning a success flag (it is
a Lean function, hence defined on all inputs and never throwing), and
whenever a command returns failure — unknown id, duplicate id, inactive
ship, blocked move, invalid rotation direction, shield already used or
unavailable, no free spawn cell — the returned state is exactly the input
state. -/
theorem commands_fail_no_mutation (s : GameState) (pid direction : String)
    (name : Option String) (now : ℚ) :
    ((GameState.add_player s pid name).1 = false →
      (GameState.add_player s pid name).2 = s)
  ∧ ((GameState.remove_player s pid).1 = false →
      (GameState.remove_player s pid).2 = s)
  ∧ ((GameState.move_player s pid).1 = false →
      (GameState.move_player s pid).2 = s)
  ∧ ((GameState.rotate_player s pid direction).1 = false →
      (GameState.rotate_player s pid direction).2 = s)
  ∧ ((GameState.fire_laser s pid).1 = false →
      (GameState.fire_laser s pid).2 = s)
  ∧ ((GameState.activate_shield s pid now).1 = false →
      (GameState.activate_shield s pid now).2 = s) := by
  refine ⟨?_, ?_, ?_, ?_, ?_, ?_⟩
  · unfold GameState.add_player
    cases h1 : s.players.any (fun q => decide (q.1 = pid))
    · cases h2 : (GameState.SpawnHelpers.spawn_positions.filter
          (GameState.SpawnHelpers.spawnFree s)).head? <;>
        simp [h1, h2]
    · simp [h1]
  · unfold GameState.remove_player
    cases h1 : s.players.any (fun q => decide (q.1 = pid)) <;> simp [h1]
  · unfold GameState.move_player GameState.getPlayer
    cases hq : s.players.lookup pid with
    | none => simp
    | some q =>
      cases ha : q.active
      · simp [ha]
      · cases hv : engine.is_valid_move
            ⟨(truncQ (q.position.x + (get_direction_vector q.rotation).x) : ℚ),
             (truncQ (q.position.y + (get_direction_vector q.rotation).y) : ℚ)⟩
            s.walls <;> simp [ha, hv]
  · unfold GameState.rotate_player GameState.getPlayer
    cases hq : s.players.lookup pid with
    | none => simp
    | some q =>
      cases ha : q.active
      · simp [ha]
      · by_cases hd1 : direction = "right"
        · simp [ha, hd1]
        · by_cases hd2 : direction = "left" <;> simp [ha, hd1, hd2]
  · unfold GameState.fire_laser GameState.getPlayer
    cases hq : s.players.lookup pid with
    | none => simp
    | some q =>
      cases ha : q.active <;> simp [ha]
  · unfold GameState.activate_shield GameState.getPlayer
    cases hq : s.players.lookup pid with
    | none => simp
    | some q =>
      dsimp only
      cases hc : (!q.shield_available || q.shield_used) <;> simp [hc]

/-- C9 counterexample: a laser at x = 2/5 moving left with speed 10 for
dt = 9/100 ends at x = −1/2, whose integer-truncated cell is 0 — inside
the grid — yet `update_laser_position` returns false, because the code
compares the raw coordinates, not the truncated cell. -/
theorem update_laser_position_cell_cx :
    ((engine.update_laser_position
      { position := ⟨2/5, 5⟩, direction := ⟨-1, 0⟩, owner_id := "p",
        active := true, speed := 10 } (9/100)).1 = false)
  ∧ ((engine.update_laser_position
      { position := ⟨2/5, 5⟩, direction := ⟨-1, 0⟩, owner_id := "p",
        active := true, speed := 10 } (9/100)).2.position = ⟨-(1/2), 5⟩)
  ∧ (0 ≤ truncQ (-(1/2) : ℚ) ∧ truncQ (-(1/2) : ℚ) < GRID_WIDTH ∧
     0 ≤ truncQ ((5 : ℚ)) ∧ truncQ ((5 : ℚ)) < GRID_HEIGHT) := by
  refine ⟨?_, ?_, ?_⟩
  · show (decide _) = false
    norm_num [engine, SCREEN_WIDTH, SCREEN_HEIGHT, CELL_SIZE]
  · show (⟨(2/5 : ℚ) + (-1) * (9/100) * 10, (5 : ℚ) + 0 * (9/100) * 10⟩ :
      Position) = ⟨-(1/2), 5⟩
    norm_num
  · norm_num [truncQ, Int.ceil_neg, GRID_WIDTH, GRID_HEIGHT, SCREEN_WIDTH,
      SCREEN_HEIGHT, CELL_SIZE]

/-- C9 (amended): `update_laser_position` first moves the laser by
`direction * dt * speed` and keeps the moved position in both outcomes;
it returns true iff the raw (untruncated) moved coordinates lie inside
`[0, GRID_WIDTH) × [0, GRID_HEIGHT)` (grid dimensions obtained by integer
division of the world size by the cell size); the truncated cell is NOT
what is tested. -/
theorem update_laser_position_spec (l : Laser) (dt : ℚ) :
    ((engine.update_laser_position l dt).2 =
      { l with position := ⟨l.position.x + l.direction.x * dt * l.speed,
                           l.position.y + l.direction.y * dt * l.speed⟩ })
  ∧ ((engine.update_laser_position l dt).1 = true ↔
      (0 ≤ l.position.x + l.direction.x * dt * l.speed ∧
       l.position.x + l.direction.x * dt * l.speed < (GRID_WIDTH : ℚ) ∧
       0 ≤ l.position.y + l.direction.y * dt * l.speed ∧
       l.position.y + l.direction.y * dt * l.speed < (GRID_HEIGHT : ℚ))) := by
  constructor
  · rfl
  · show (decide _) = true ↔ _
    rw [decide_eq_true_eq]
    exact Iff.rfl

/-- C10: the per-player environment projection reports every laser in the
laser list whose raw offsets from the ship are within Chebyshev radius 5,
with no test of the laser's `active` flag; the collision pass never
removes lasers from the list (it only clears `active` flags, preserving
position, direction, owner and speed); and a laser that is already
inactive is dropped at the start of the next `update`'s laser phase. -/
theorem env_reports_dead_lasers (s : GameState) (pid : String)
    (p : Spaceship) (l : Laser) (now : ℚ)
    (hp : s.players.lookup pid = some p) (hl : l ∈ s.lasers)
    (hx : |l.position.x - p.position.x| ≤ 5)
    (hy : |l.position.y - p.position.y| ≤ 5) :
    (∀ v, (s.get_environment_state).lookup pid = some v →
      (l.position.x - p.position.x, l.position.y - p.position.y) ∈ v.lasers)
  ∧ ((s.check_collisions now).lasers.map
        (fun l => (l.position, l.direction, l.owner_id, l.speed)) =
      s.lasers.map (fun l => (l.position, l.direction, l.owner_id, l.speed)))
  ∧ (∀ (dt : ℚ) (rest : List Laser) (ms : List Mine), l.active = false →
      updateLasersAux s.walls dt (l :: rest) ms =
        updateLasersAux s.walls dt rest ms) := by
  refine ⟨?_, check_collisions_kinematics s now, ?_⟩
  · intro v hv
    unfold GameState.get_environment_state at hv
    rw [lookup_map_value (envViewOf s) pid s.players, hp] at hv
    have hv' := Option.some.inj hv
    subst hv'
    unfold envViewOf
    dsimp only
    rw [List.mem_filterMap]
    refine ⟨l, hl, ?_⟩
    unfold relWithin
    rw [if_pos ⟨hx, hy⟩]
  · intro dt rest ms hla
    simp only [updateLasersAux, hla, Bool.not_false, if_true]

/-- Witness for C1 at a concrete input: on the one-player arena whose ship
is inactive, the move command leaves the state unchanged. -/
theorem move_player_legality_witness :
    (GameState.move_player wStateInactive "a").2 = wStateInactive :=
  (move_player_legality wStateInactive "a" { wShip with active := false }
    5 5 rfl rfl (Or.inl rfl)).2.2 (by decide)

/-- Witness for C2 at a concrete input: on the arena whose ship has a used
shield, a later `activate_shield` after a tick still fails. -/
theorem shield_single_use_witness :
    (GameState.activate_shield (([Op.tick 1 5]).foldl applyOp wStateUsed)
      "a" 6).1 = false :=
  shield_single_use.2.2.2 wStateUsed [Op.tick 1 5] "a" wShipUsed 6 rfl rfl
    rfl (by decide)

/-- Witness for C3 at a concrete input: a shielded ship on a mine keeps
its record unchanged through the mine branch. -/
theorem shield_blocks_witness :
    (minePassPlayer { wShip with shield_active := true }
      [⟨⟨((5 : ℤ) : ℚ), ((5 : ℤ) : ℚ)⟩⟩] false 0 1).1 =
      { wShip with shield_active := true } :=
  (shield_blocks_lives_not_consumption { wShip with shield_active := true }
    [⟨⟨((5 : ℤ) : ℚ), ((5 : ℤ) : ℚ)⟩⟩] [] false 0 1 wState "a" rfl).1

/-- Witness for C4 (amended) at a concrete input: the colliding mine is
removed from the singleton mine list. -/
theorem mine_collision_flash_witness :
    (minePassPlayer wShip [⟨⟨((5 : ℤ) : ℚ), ((5 : ℤ) : ℚ)⟩⟩] false 0 1).2.1 =
      ([⟨⟨((5 : ℤ) : ℚ), ((5 : ℤ) : ℚ)⟩⟩] : List Mine).eraseIdx 0 :=
  (mine_collision_flash wShip [⟨⟨((5 : ℤ) : ℚ), ((5 : ℤ) : ℚ)⟩⟩] false 0 1 0
    (by decide)).1

/-- Witness for C5 at a concrete input: a tick on the one-life ship
standing on a mine drops its lives to −2 and exactly then clears the
`active` flag. -/
theorem elimination_witness :
    ((({ wShip with lifes := 1 } : Spaceship).active = true ∧
      ({ wShip with lifes := -2, active := false } : Spaceship).active =
        false) ↔
     (({ wShip with lifes := -2, active := false } : Spaceship).lifes <
        ({ wShip with lifes := 1 } : Spaceship).lifes ∧
      ({ wShip with lifes := -2, active := false } : Spaceship).lifes ≤ 0)) :=
  (elimination wStateMine (Op.tick 1 1) "a" { wShip with lifes := 1 }
    { wShip with lifes := -2, active := false } rfl (by decide)).1

/-- Witness for C6 (amended) at a concrete input: the failing call on a
used shield leaves the state unchanged. -/
theorem activate_shield_spec_witness :
    (GameState.activate_shield wStateUsed "a" 0).2 = wStateUsed :=
  (activate_shield_spec wStateUsed "a" 0).2 (by decide)

/-- Witness for C7 at a concrete input: a ship's own laser on its own cell
leaves the laser branch a no-op. -/
theorem self_laser_immunity_witness :
    laserPassPlayer wShip [wLaser] false 0 1 = (wShip, [wLaser], false, 0) :=
  self_laser_immunity wShip [wLaser] false 0 1 (by decide)

/-- Witness for C8 at concrete inputs: each command's failure leaves the
state unchanged (duplicate id, unknown id, unknown id, invalid direction,
unknown id, used shield). -/
theorem commands_fail_witness :
    ((GameState.add_player wState "a" none).2 = wState)
  ∧ ((GameState.remove_player wState "b").2 = wState)
  ∧ ((GameState.move_player wState "b").2 = wState)
  ∧ ((GameState.rotate_player wState "a" "up").2 = wState)
  ∧ ((GameState.fire_laser wState "b").2 = wState)
  ∧ ((GameState.activate_shield wStateUsed "a" 0).2 = wStateUsed) :=
  ⟨(commands_fail_no_mutation wState "a" "up" none 0).1 (by decide),
   (commands_fail_no_mutation wState "b" "up" none 0).2.1 (by decide),
   (commands_fail_no_mutation wState "b" "up" none 0).2.2.1 (by decide),
   (commands_fail_no_mutation wState "a" "up" none 0).2.2.2.1 (by decide),
   (commands_fail_no_mutation wState "b" "up" none 0).2.2.2.2.1 (by decide),
   (commands_fail_no_mutation wStateUsed "a" "up" none 0).2.2.2.2.2
     (by decide)⟩

/-- Witness for C10 at a concrete input: the collision pass on the arena
holding the dead laser preserves the laser list's kinematic data. -/
theorem env_reports_dead_lasers_witness :
    (wStateLaser.check_collisions 0).lasers.map
        (fun l => (l.position, l.direction, l.owner_id, l.speed)) =
      wStateLaser.lasers.map
        (fun l => (l.position, l.direction, l.owner_id, l.speed)) :=
  (env_reports_dead_lasers wStateLaser "a" wShip wLaserDead 0 rfl
    (by simp [wStateLaser, wState])
    (by norm_num [wLaserDead, wShip])
    (by norm_num [wLaserDead, wShip])).2.1

end SpaceSim
